import Mathlib

/-!
# Listener topology and lifecycle: `pkg/servers/servers.go`

A shallow embedding of the Go package `servers`.

* `*http.Server` is an `Option Server`: `none` is the nil pointer, `some srv`
  a pointer to a server with the two fields the package sets.
* `fmt.Sprintf("0.0.0.0:%s", p)` is `"0.0.0.0:" ++ p`.
* `time.Duration` is a number of nanoseconds.
* The calls into `net/http` and `logrus` are recorded as a trace of events.
  A server reached through a field of the manager is named in the trace by a
  `Ref`: the field it was read from together with the server stored there.
  The four fields of a manager hold four separate allocations (`New` executes
  a separate `&http.Server{...}` for each), so the field is the identity of
  the pointer.
* What `(*http.Server).Shutdown` and `(*http.Server).Close` return is not
  decided by this package; it is given by an `Outcomes` value, and theorems
  quantify over all of them. A call into `net/http` is taken to return: how
  long `Shutdown(context.TODO())` waits for open connections is outside the
  embedding.
* `ListenAndServe` is embedded as the sequence of `go` statements it executes;
  what the goroutines do afterwards, concurrently, is not part of its run.
  The body of each goroutine, `httpListen`, is embedded on its own, as the
  calls it makes once the blocking `server.ListenAndServe()` has returned.
* `log.Fatalf` logs and exits the process: a `Run` whose `result` is `none`.
-/

namespace Servers

/-- The value of `time.Second` in nanoseconds. -/
def Second : Nat := 1000000000

/-- The fields of `http.Server` that the package sets. -/
structure Server where
  Addr : String
  ReadHeaderTimeout : Nat
  deriving DecidableEq, Repr

/-- The struct `ServerInfo`; the defaults are the zero value `ServerInfo{}`. -/
structure ServerInfo where
  HTTP : Option Server := none
  HTTPS : Option Server := none
  HTTP_v6 : Option Server := none
  HTTPS_v6 : Option Server := none
  HTTPSKeyFile : String := ""
  HTTPSCertFile : String := ""
  HasBothHandlers : Bool := false
  FastShutdown : Bool := false
  deriving DecidableEq, Repr

/-- The function `New`, lines 23-63. -/
def New (httpPort httpsPort HTTPSKeyFile HTTPSCertFile : String) : ServerInfo :=
  let servers : ServerInfo := {}
  let servers :=
    if httpsPort ≠ "" ∧ HTTPSKeyFile ≠ "" ∧ HTTPSCertFile ≠ "" then
      { servers with
        HTTPS := some { Addr := "0.0.0.0:" ++ httpsPort, ReadHeaderTimeout := 3 * Second }
        HTTPS_v6 := some { Addr := "[::]:" ++ httpsPort, ReadHeaderTimeout := 3 * Second }
        HTTPSCertFile := HTTPSCertFile
        HTTPSKeyFile := HTTPSKeyFile }
    else if httpPort = "" then
      { servers with
        HTTP := some { Addr := "0.0.0.0:" ++ httpsPort, ReadHeaderTimeout := 3 * Second }
        HTTP_v6 := some { Addr := "[::]:" ++ httpsPort, ReadHeaderTimeout := 3 * Second } }
    else servers
  let servers :=
    if httpPort ≠ "" then
      { servers with
        HTTP := some { Addr := "0.0.0.0:" ++ httpPort, ReadHeaderTimeout := 3 * Second }
        HTTP_v6 := some { Addr := "[::]:" ++ httpPort, ReadHeaderTimeout := 3 * Second } }
    else servers
  { servers with HasBothHandlers := servers.HTTP.isSome && servers.HTTPS.isSome }

/-- The four pointer fields of `ServerInfo`. -/
inductive Slot
  | HTTP
  | HTTPS
  | HTTP_v6
  | HTTPS_v6
  deriving DecidableEq, Repr

/-- A non-nil `*http.Server` held by a manager: the field holding it and the
server it points to. -/
structure Ref where
  slot : Slot
  server : Server
  deriving DecidableEq, Repr

/-- The pointer read from field `f`, whose content is `p`. -/
def ref (f : Slot) (p : Option Server) : Option Ref :=
  p.map fun srv => { slot := f, server := srv }

/-- A Go `error` value that is not nil, as its message. -/
abbrev Error := String

/-- What the calls into `net/http` return: `none` is the nil error. -/
structure Outcomes where
  Shutdown : Ref → Option Error
  Close : Ref → Option Error

/-- The observable actions of the package. -/
inductive Event
  /-- The call `server.Shutdown(context.TODO())`. -/
  | Shutdown (server : Ref)
  /-- The call `server.Close()`. -/
  | Close (server : Ref)
  /-- The statement `go httpListen(server)`; the argument may be nil. -/
  | Go (server : Option Ref)
  /-- A call of `log.Infof`, with the formatted message. -/
  | Infof (msg : String)
  /-- A call of `log.Fatalf`, with the formatted message. -/
  | Fatalf (msg : String)
  deriving DecidableEq, Repr

/-- An execution: the events issued, and the value returned, or `none` when
`log.Fatalf` ended the process. -/
structure Run (α : Type) where
  trace : List Event
  result : Option α

/-- Sequential composition: `k` runs only if `r` returned. -/
def Run.andThen {α β : Type} (r : Run α) (k : α → Run β) : Run β :=
  match r.result with
  | none => { trace := r.trace, result := none }
  | some a => { trace := r.trace ++ (k a).trace, result := (k a).result }

/-- The function `shutdown`, lines 65-74. -/
def shutdown (o : Outcomes) (name : String) (server : Ref) : Run Unit :=
  match o.Shutdown server with
  | some err =>
    match o.Close server with
    | some err2 =>
      { trace := [Event.Shutdown server,
                  Event.Infof (name ++ " shutdown failed: " ++ err),
                  Event.Close server,
                  Event.Fatalf (name ++ " emergency shutdown failed: " ++ err2)],
        result := none }
    | none =>
      { trace := [Event.Shutdown server,
                  Event.Infof (name ++ " shutdown failed: " ++ err),
                  Event.Close server],
        result := some () }
  | none =>
    { trace := [Event.Shutdown server,
                Event.Infof (name ++ " server terminated gracefully")],
      result := some () }

/-- The method `ListenAndServe`, lines 76-86: the goroutines it starts. -/
def ServerInfo.ListenAndServe (s : ServerInfo) : Run Unit :=
  let r1 : Run Unit :=
    if s.HTTP ≠ none then
      { trace := [Event.Go (ref Slot.HTTP s.HTTP), Event.Go (ref Slot.HTTP_v6 s.HTTP_v6)],
        result := some () }
    else { trace := [], result := some () }
  r1.andThen fun _ =>
    if s.HTTPS ≠ none then
      { trace := [Event.Go (ref Slot.HTTPS s.HTTPS), Event.Go (ref Slot.HTTPS_v6 s.HTTPS_v6)],
        result := some () }
    else { trace := [], result := some () }

/-- The method `Shutdown`, lines 88-104. In the fast branch the error that
`Close` returns is discarded. -/
def ServerInfo.Shutdown (o : Outcomes) (s : ServerInfo) : Run Bool :=
  let r1 : Run Unit :=
    match s.HTTPS with
    | some srv =>
      if s.FastShutdown then
        { trace := [Event.Close { slot := Slot.HTTPS, server := srv }], result := some () }
      else
        shutdown o "HTTPS" { slot := Slot.HTTPS, server := srv }
    | none => { trace := [], result := some () }
  r1.andThen fun _ =>
    let r2 : Run Unit :=
      match s.HTTP with
      | some srv =>
        if s.FastShutdown then
          { trace := [Event.Close { slot := Slot.HTTP, server := srv }], result := some () }
        else
          shutdown o "HTTP" { slot := Slot.HTTP, server := srv }
      | none => { trace := [], result := some () }
    r2.andThen fun _ => { trace := [], result := some true }

/-! ## Reading a trace -/

/-- The server a stop action is issued on: the receiver of a graceful
`Shutdown` or of a hard `Close`; `none` for every other event. -/
def Event.stopTarget : Event → Option Ref
  | Event.Shutdown server => some server
  | Event.Close server => some server
  | _ => none

/-- The fields of the encrypted pair. -/
def Slot.encrypted : Slot → Bool
  | Slot.HTTPS => true
  | Slot.HTTPS_v6 => true
  | _ => false

/-- The fields of the plaintext pair. -/
def Slot.plaintext : Slot → Bool
  | Slot.HTTP => true
  | Slot.HTTP_v6 => true
  | _ => false

/-- A stop action on a server of the encrypted pair. -/
def Event.stopsEncrypted (e : Event) : Bool :=
  match e.stopTarget with
  | some r => r.slot.encrypted
  | none => false

/-- A stop action on a server of the plaintext pair. -/
def Event.stopsPlaintext (e : Event) : Bool :=
  match e.stopTarget with
  | some r => r.slot.plaintext
  | none => false

/-- The stop actions of a trace whose receiver is `r`, in the order issued. -/
def stopActionsOn (r : Ref) (tr : List Event) : List Event :=
  tr.filter fun e => decide (e.stopTarget = some r)

/-- The stop actions of a trace whose receiver is held in field `f`. -/
def stopActionsIn (f : Slot) (tr : List Event) : List Event :=
  tr.filter fun e => decide (e.stopTarget.map Ref.slot = some f)

/-- The manager `s` with its exported field `FastShutdown` set by the owner. -/
def ServerInfo.withFastShutdown (s : ServerInfo) (fast : Bool) : ServerInfo :=
  { s with FastShutdown := fast }

/-- Outcomes in which every call into `net/http` succeeds. -/
def allSucceed : Outcomes :=
  { Shutdown := fun _ => none, Close := fun _ => none }

/-- Outcomes in which every call into `net/http` returns an error. -/
def allFail : Outcomes :=
  { Shutdown := fun _ => some "shutdown error", Close := fun _ => some "close error" }

/-- Outcomes in which every graceful shutdown returns an error and every hard
close succeeds. -/
def gracefulFails : Outcomes :=
  { Shutdown := fun _ => some "context deadline exceeded", Close := fun _ => none }

/-- One block of `Shutdown`, lines 89-95 with `name` "HTTPS" and field HTTPS,
lines 96-102 with `name` "HTTP" and field HTTP: stop the server `p` read from
field `f`. `Shutdown_eq_blocks` shows that `Shutdown` is the first block
followed by the second. -/
def stopBlock (o : Outcomes) (fast : Bool) (name : String) (f : Slot)
    (p : Option Server) : Run Unit :=
  match p with
  | some srv =>
    if fast then
      { trace := [Event.Close { slot := f, server := srv }], result := some () }
    else
      shutdown o name { slot := f, server := srv }
  | none => { trace := [], result := some () }

/-- The graceful shutdown of the server `p` read from field `f` fails and the
escalated close fails too. -/
def bothFail (o : Outcomes) (f : Slot) (p : Option Server) : Bool :=
  match p with
  | some srv =>
    (o.Shutdown { slot := f, server := srv }).isSome &&
      (o.Close { slot := f, server := srv }).isSome
  | none => false

/-- The stop actions `shutdown` issues on `r`: the graceful shutdown, then
the hard close if the graceful shutdown returned an error. -/
def escalation (o : Outcomes) (r : Ref) : List Event :=
  if (o.Shutdown r).isSome then [Event.Shutdown r, Event.Close r] else [Event.Shutdown r]

/-! ## The listening goroutines -/

/-- What the blocking call `server.ListenAndServe()` returns. By the
documentation of `net/http` it is never nil: it is `http.ErrServerClosed` after
a `Shutdown` or a `Close`, or another error. -/
inductive ListenError
  | ErrServerClosed
  | other (msg : Error)
  deriving DecidableEq, Repr

/-- The calls a listening goroutine can make on a server. `net/http` offers a
plaintext listen and a TLS listen that takes a certificate file and a key
file. -/
inductive ListenEvent
  /-- A call of `log.Infof`, with the formatted message. -/
  | Infof (msg : String)
  /-- The call `server.ListenAndServe()`: plaintext HTTP on `server.Addr`. -/
  | ListenAndServe (server : Ref)
  /-- The call `server.ListenAndServeTLS(certFile, keyFile)`: HTTPS on
  `server.Addr`. -/
  | ListenAndServeTLS (server : Ref) (certFile keyFile : String)
  /-- A call of `log.Fatalf`, with the formatted message. -/
  | Fatalf (msg : String)
  deriving DecidableEq, Repr

/-- How a goroutine ends: it returns, `log.Fatalf` exits the process, or it
panics dereferencing a nil pointer. -/
inductive Exit
  | returned
  | fatal
  | nilDereference
  deriving DecidableEq, Repr

/-- The execution of one goroutine. -/
structure Task where
  trace : List ListenEvent
  exit : Exit
  deriving DecidableEq, Repr

/-- The function `httpListen`, lines 106-111. `listen` gives what
`server.ListenAndServe()` returns; reading `server.Addr` through a nil pointer
panics before anything is logged. -/
def httpListen (listen : Ref → ListenError) (server : Option Ref) : Task :=
  match server with
  | none => { trace := [], exit := Exit.nilDereference }
  | some r =>
    match listen r with
    | ListenError.ErrServerClosed =>
      { trace := [ListenEvent.Infof ("Starting handler on " ++ r.server.Addr ++ "..."),
                  ListenEvent.ListenAndServe r],
        exit := Exit.returned }
    | ListenError.other msg =>
      { trace := [ListenEvent.Infof ("Starting handler on " ++ r.server.Addr ++ "..."),
                  ListenEvent.ListenAndServe r,
                  ListenEvent.Fatalf ("Listener closed: " ++ msg)],
        exit := Exit.fatal }

/-- The goroutine a `go httpListen(server)` statement starts; no other event
starts one. -/
def Event.task (listen : Ref → ListenError) : Event → Option Task
  | Event.Go server => some (httpListen listen server)
  | _ => none

/-- The goroutines that `ListenAndServe` starts, in the order of its `go`
statements. -/
def ServerInfo.tasks (listen : Ref → ListenError) (s : ServerInfo) : List Task :=
  s.ListenAndServe.trace.filterMap (Event.task listen)

/-- A TLS listen. -/
def ListenEvent.isTLS : ListenEvent → Bool
  | ListenEvent.ListenAndServeTLS _ _ _ => true
  | _ => false

/-- The number of pairs that `ListenAndServe` and `Shutdown` treat as
configured: those whose IPv4 server is not nil. -/
def ServerInfo.configuredPairs (s : ServerInfo) : Nat :=
  (if s.HTTP ≠ none then 1 else 0) + (if s.HTTPS ≠ none then 1 else 0)

/-- Every listener is stopped in an orderly way: `ListenAndServe()` returns
`http.ErrServerClosed`. -/
def closedInOrder : Ref → ListenError :=
  fun _ => ListenError.ErrServerClosed

/-! ## The structure of a run of `Shutdown` -/

theorem Shutdown_eq_blocks (o : Outcomes) (s : ServerInfo) :
    s.Shutdown o =
      (stopBlock o s.FastShutdown "HTTPS" Slot.HTTPS s.HTTPS).andThen fun _ =>
        (stopBlock o s.FastShutdown "HTTP" Slot.HTTP s.HTTP).andThen fun _ =>
          { trace := [], result := some true } := rfl

theorem stopBlock_result (o : Outcomes) (fast : Bool) (name : String) (f : Slot)
    (p : Option Server) :
    (stopBlock o fast name f p).result =
      if (!fast && bothFail o f p) = true then none else some () := by
  cases p with
  | none => simp [stopBlock, bothFail]
  | some srv =>
    cases fast
    · cases h1 : o.Shutdown { slot := f, server := srv } <;>
        cases h2 : o.Close { slot := f, server := srv } <;>
        simp [stopBlock, bothFail, shutdown, h1, h2]
    · simp [stopBlock, bothFail]

theorem stopBlock_trace_fast (o : Outcomes) (name : String) (f : Slot) (p : Option Server) :
    (stopBlock o true name f p).trace =
      match p with
      | some srv => [Event.Close { slot := f, server := srv }]
      | none => [] := by
  cases p <;> simp [stopBlock]

theorem stopBlock_trace_nil (o : Outcomes) (fast : Bool) (name : String) (f : Slot) :
    (stopBlock o fast name f none).trace = [] := rfl

theorem stopBlock_targets (o : Outcomes) (fast : Bool) (name : String) (f : Slot)
    (p : Option Server) (e : Event) (he : e ∈ (stopBlock o fast name f p).trace)
    (r : Ref) (hr : e.stopTarget = some r) : r.slot = f ∧ p = some r.server := by
  cases p with
  | none => simp [stopBlock] at he
  | some srv =>
    cases fast
    · cases h1 : o.Shutdown { slot := f, server := srv } <;>
        cases h2 : o.Close { slot := f, server := srv } <;>
        simp [stopBlock, shutdown, h1, h2] at he <;>
        rcases he with he | he | he | he <;>
        simp_all [Event.stopTarget] <;>
        (subst hr; simp)
    · simp [stopBlock] at he
      subst he
      simp [Event.stopTarget] at hr
      subst hr
      simp

theorem stopBlock_graceful_stopActionsOn (o : Outcomes) (name : String) (f : Slot)
    (srv : Server) :
    stopActionsOn { slot := f, server := srv }
        (stopBlock o false name f (some srv)).trace =
      escalation o { slot := f, server := srv } := by
  cases h1 : o.Shutdown { slot := f, server := srv } <;>
    cases h2 : o.Close { slot := f, server := srv } <;>
    simp [stopBlock, shutdown, stopActionsOn, escalation, Event.stopTarget, h1, h2]

theorem stopActionsOn_eq_nil_of_slot (r : Ref) (f : Slot) (tr : List Event)
    (h : ∀ e ∈ tr, ∀ r2, e.stopTarget = some r2 → r2.slot = f) (hne : r.slot ≠ f) :
    stopActionsOn r tr = [] := by
  simp only [stopActionsOn, List.filter_eq_nil_iff, decide_eq_true_eq]
  intro e he heq
  exact hne (h e he r heq)

theorem Shutdown_trace (o : Outcomes) (s : ServerInfo) :
    (s.Shutdown o).trace =
      (stopBlock o s.FastShutdown "HTTPS" Slot.HTTPS s.HTTPS).trace ++
        (if (!s.FastShutdown && bothFail o Slot.HTTPS s.HTTPS) = true then []
         else (stopBlock o s.FastShutdown "HTTP" Slot.HTTP s.HTTP).trace) := by
  rw [Shutdown_eq_blocks]
  have h1 := stopBlock_result o s.FastShutdown "HTTPS" Slot.HTTPS s.HTTPS
  have h2 := stopBlock_result o s.FastShutdown "HTTP" Slot.HTTP s.HTTP
  by_cases c1 : (!s.FastShutdown && bothFail o Slot.HTTPS s.HTTPS) = true
  · rw [if_pos c1] at h1
    simp [Run.andThen, h1, c1]
  · rw [if_neg c1] at h1
    by_cases c2 : (!s.FastShutdown && bothFail o Slot.HTTP s.HTTP) = true
    · rw [if_pos c2] at h2
      simp [Run.andThen, h1, h2, c1]
    · rw [if_neg c2] at h2
      simp [Run.andThen, h1, h2, c1]

theorem Shutdown_result (o : Outcomes) (s : ServerInfo) :
    (s.Shutdown o).result =
      if (!s.FastShutdown && (bothFail o Slot.HTTPS s.HTTPS || bothFail o Slot.HTTP s.HTTP)) = true
      then none else some true := by
  rw [Shutdown_eq_blocks]
  have h1 := stopBlock_result o s.FastShutdown "HTTPS" Slot.HTTPS s.HTTPS
  have h2 := stopBlock_result o s.FastShutdown "HTTP" Slot.HTTP s.HTTP
  by_cases c1 : (!s.FastShutdown && bothFail o Slot.HTTPS s.HTTPS) = true
  · rw [if_pos c1] at h1
    have c : (!s.FastShutdown &&
        (bothFail o Slot.HTTPS s.HTTPS || bothFail o Slot.HTTP s.HTTP)) = true := by
      simp only [Bool.and_eq_true, Bool.or_eq_true] at c1 ⊢
      exact ⟨c1.1, Or.inl c1.2⟩
    simp [Run.andThen, h1, c]
  · rw [if_neg c1] at h1
    by_cases c2 : (!s.FastShutdown && bothFail o Slot.HTTP s.HTTP) = true
    · rw [if_pos c2] at h2
      have c : (!s.FastShutdown &&
          (bothFail o Slot.HTTPS s.HTTPS || bothFail o Slot.HTTP s.HTTP)) = true := by
        simp only [Bool.and_eq_true, Bool.or_eq_true] at c2 ⊢
        exact ⟨c2.1, Or.inr c2.2⟩
      simp [Run.andThen, h1, h2, c]
    · rw [if_neg c2] at h2
      have c : ¬ (!s.FastShutdown &&
          (bothFail o Slot.HTTPS s.HTTPS || bothFail o Slot.HTTP s.HTTP)) = true := by
        simp only [Bool.and_eq_true, Bool.or_eq_true, not_and, not_or] at c1 c2 ⊢
        exact fun h => ⟨c1 h, c2 h⟩
      simp [Run.andThen, h1, h2, c]

theorem Shutdown_stop_targets (o : Outcomes) (s : ServerInfo) (e : Event)
    (he : e ∈ (s.Shutdown o).trace) (r : Ref) (hr : e.stopTarget = some r) :
    (r.slot = Slot.HTTPS ∧ s.HTTPS = some r.server) ∨
      (r.slot = Slot.HTTP ∧ s.HTTP = some r.server) := by
  rw [Shutdown_trace, List.mem_append] at he
  rcases he with he | he
  · exact Or.inl (stopBlock_targets o _ _ _ _ e he r hr)
  · split at he
    · simp at he
    · exact Or.inr (stopBlock_targets o _ _ _ _ e he r hr)

theorem escalation_ne_nil (o : Outcomes) (r : Ref) : escalation o r ≠ [] := by
  unfold escalation
  split <;> simp

theorem index_lt_of_append {α : Type} (P Q : α → Prop) (l1 l2 : List α)
    (h1 : ∀ e ∈ l1, ¬ Q e) (h2 : ∀ e ∈ l2, ¬ P e) (i j : Nat) (a b : α)
    (hi : (l1 ++ l2)[i]? = some a) (ha : P a)
    (hj : (l1 ++ l2)[j]? = some b) (hb : Q b) : i < j := by
  have hi1 : i < l1.length := by
    by_contra hc
    rw [List.getElem?_append_right (Nat.le_of_not_lt hc)] at hi
    exact h2 a (List.getElem?_mem hi) ha
  have hj1 : l1.length ≤ j := by
    by_contra hc
    rw [List.getElem?_append_left (Nat.lt_of_not_le hc)] at hj
    exact h1 b (List.getElem?_mem hj) hb
  exact Nat.lt_of_lt_of_le hi1 hj1

theorem stopBlock_ne_nil (o : Outcomes) (fast : Bool) (name : String) (f : Slot)
    (srv : Server) :
    ∃ e ∈ (stopBlock o fast name f (some srv)).trace,
      e.stopTarget = some { slot := f, server := srv } := by
  cases fast
  · cases h1 : o.Shutdown { slot := f, server := srv } <;>
      cases h2 : o.Close { slot := f, server := srv } <;>
      exact ⟨Event.Shutdown { slot := f, server := srv },
        by simp [stopBlock, shutdown, h1, h2], rfl⟩
  · exact ⟨Event.Close { slot := f, server := srv }, by simp [stopBlock], rfl⟩

theorem stopBlock_graceful_mem_Shutdown (o : Outcomes) (name : String) (f : Slot)
    (p : Option Server) (r : Ref) :
    Event.Shutdown r ∈ (stopBlock o false name f p).trace ↔
      (p = some r.server ∧ r.slot = f) := by
  obtain ⟨rs, rv⟩ := r
  cases p with
  | none => simp [stopBlock]
  | some srv =>
    cases h1 : o.Shutdown { slot := f, server := srv } <;>
      cases h2 : o.Close { slot := f, server := srv } <;>
      simp [stopBlock, shutdown, h1, h2] <;>
      constructor <;> rintro ⟨rfl, rfl⟩ <;> exact ⟨rfl, rfl⟩

theorem stopBlock_graceful_mem_Close (o : Outcomes) (name : String) (f : Slot)
    (p : Option Server) (r : Ref) :
    Event.Close r ∈ (stopBlock o false name f p).trace ↔
      (p = some r.server ∧ r.slot = f ∧ o.Shutdown r ≠ none) := by
  obtain ⟨rs, rv⟩ := r
  cases p with
  | none => simp [stopBlock]
  | some srv =>
    cases h1 : o.Shutdown { slot := f, server := srv } <;>
      cases h2 : o.Close { slot := f, server := srv } <;>
      simp [stopBlock, shutdown, h1, h2]
    · rintro rfl rfl
      simp [h1]
    · rintro rfl rfl
      simp [h1]
    · constructor
      · rintro ⟨rfl, rfl⟩
        simp [h1]
      · rintro ⟨rfl, rfl, -⟩
        exact ⟨rfl, rfl⟩
    · constructor
      · rintro ⟨rfl, rfl⟩
        simp [h1]
      · rintro ⟨rfl, rfl, -⟩
        exact ⟨rfl, rfl⟩

theorem bothFail_iff (o : Outcomes) (f : Slot) (p : Option Server) :
    bothFail o f p = true ↔
      ∃ r : Ref, p = some r.server ∧ r.slot = f ∧ o.Shutdown r ≠ none ∧ o.Close r ≠ none := by
  cases p with
  | none => simp [bothFail]
  | some srv =>
    simp only [bothFail, Bool.and_eq_true, Option.isSome_iff_ne_none, Option.some.injEq]
    constructor
    · intro h
      exact ⟨{ slot := f, server := srv }, rfl, rfl, h.1, h.2⟩
    · rintro ⟨⟨rs, rv⟩, h1, h2, h3, h4⟩
      simp only at h1 h2
      subst h1 h2
      exact ⟨h3, h4⟩

/-! ## The resolver `New` -/

/-- C1: `New` configures the encrypted pair (HTTPS and HTTPS_v6 both non-nil)
if and only if httpsPort, key and cert are all non-empty; when it does, the
two servers are bound to `0.0.0.0:httpsPort` and `[::]:httpsPort` and the key
and certificate paths are stored; when it does not, HTTPS and HTTPS_v6 are nil
and both paths are empty. -/
theorem New_encrypted_pair (httpPort httpsPort key cert : String) :
    (((New httpPort httpsPort key cert).HTTPS ≠ none ∧
        (New httpPort httpsPort key cert).HTTPS_v6 ≠ none) ↔
      (httpsPort ≠ "" ∧ key ≠ "" ∧ cert ≠ "")) ∧
    ((httpsPort ≠ "" ∧ key ≠ "" ∧ cert ≠ "") →
      (New httpPort httpsPort key cert).HTTPS =
          some { Addr := "0.0.0.0:" ++ httpsPort, ReadHeaderTimeout := 3 * Second } ∧
      (New httpPort httpsPort key cert).HTTPS_v6 =
          some { Addr := "[::]:" ++ httpsPort, ReadHeaderTimeout := 3 * Second } ∧
      (New httpPort httpsPort key cert).HTTPSKeyFile = key ∧
      (New httpPort httpsPort key cert).HTTPSCertFile = cert) ∧
    (¬ (httpsPort ≠ "" ∧ key ≠ "" ∧ cert ≠ "") →
      (New httpPort httpsPort key cert).HTTPS = none ∧
      (New httpPort httpsPort key cert).HTTPS_v6 = none ∧
      (New httpPort httpsPort key cert).HTTPSKeyFile = "" ∧
      (New httpPort httpsPort key cert).HTTPSCertFile = "") := by
  by_cases h : httpsPort ≠ "" ∧ key ≠ "" ∧ cert ≠ "" <;>
    by_cases hp : httpPort = "" <;>
    simp [New, h, hp]

/-- C2: single-port fallback. When httpPort is empty and at least one of
httpsPort, key, cert is empty, `New` binds the plaintext pair to httpsPort and
leaves the encrypted pair absent. -/
theorem New_single_port_fallback (httpPort httpsPort key cert : String)
    (hp : httpPort = "") (h : httpsPort = "" ∨ key = "" ∨ cert = "") :
    (New httpPort httpsPort key cert).HTTP =
        some { Addr := "0.0.0.0:" ++ httpsPort, ReadHeaderTimeout := 3 * Second } ∧
    (New httpPort httpsPort key cert).HTTP_v6 =
        some { Addr := "[::]:" ++ httpsPort, ReadHeaderTimeout := 3 * Second } ∧
    (New httpPort httpsPort key cert).HTTPS = none ∧
    (New httpPort httpsPort key cert).HTTPS_v6 = none := by
  have hc : ¬ (httpsPort ≠ "" ∧ key ≠ "" ∧ cert ≠ "") := by
    rintro ⟨h1, h2, h3⟩
    rcases h with h | h | h
    · exact h1 h
    · exact h2 h
    · exact h3 h
  simp [New, hc, hp]

/-- C2 at the input of the specification: encrypted port 8443, no key, no
certificate, no plaintext port. -/
theorem New_single_port_fallback_witness :
    ("" = "" ∧ ("8443" = "" ∨ "" = "" ∨ "" = "")) ∧
    (New "" "8443" "" "").HTTP =
        some { Addr := "0.0.0.0:" ++ "8443", ReadHeaderTimeout := 3 * Second } ∧
    (New "" "8443" "" "").HTTP_v6 =
        some { Addr := "[::]:" ++ "8443", ReadHeaderTimeout := 3 * Second } ∧
    (New "" "8443" "" "").HTTPS = none ∧
    (New "" "8443" "" "").HTTPS_v6 = none :=
  ⟨⟨rfl, Or.inr (Or.inl rfl)⟩,
   New_single_port_fallback "" "8443" "" "" rfl (Or.inr (Or.inl rfl))⟩

/-- C3: with a non-empty httpPort, whatever httpsPort, key and cert are, `New`
binds the plaintext pair to httpPort; when httpsPort, key and cert are all
empty the encrypted pair is absent, so the plaintext pair is the only one. -/
theorem New_plaintext_port (httpPort httpsPort key cert : String)
    (hp : httpPort ≠ "") :
    (New httpPort httpsPort key cert).HTTP =
        some { Addr := "0.0.0.0:" ++ httpPort, ReadHeaderTimeout := 3 * Second } ∧
    (New httpPort httpsPort key cert).HTTP_v6 =
        some { Addr := "[::]:" ++ httpPort, ReadHeaderTimeout := 3 * Second } ∧
    (httpsPort = "" ∧ key = "" ∧ cert = "" →
      (New httpPort httpsPort key cert).HTTPS = none ∧
      (New httpPort httpsPort key cert).HTTPS_v6 = none) := by
  by_cases h : httpsPort ≠ "" ∧ key ≠ "" ∧ cert ≠ ""
  · have h1 : httpsPort ≠ "" := h.1
    simp [New, h, hp, h1]
  · simp [New, h, hp]

/-- C3 at the input of the specification: plaintext port 8080 and nothing
else. -/
theorem New_plaintext_port_witness :
    ("8080" ≠ "") ∧
    (New "8080" "" "" "").HTTP =
        some { Addr := "0.0.0.0:" ++ "8080", ReadHeaderTimeout := 3 * Second } ∧
    (New "8080" "" "" "").HTTP_v6 =
        some { Addr := "[::]:" ++ "8080", ReadHeaderTimeout := 3 * Second } ∧
    (New "8080" "" "" "").HTTPS = none ∧
    (New "8080" "" "" "").HTTPS_v6 = none :=
  ⟨by decide,
   (New_plaintext_port "8080" "" "" "" (by decide)).1,
   (New_plaintext_port "8080" "" "" "" (by decide)).2.1,
   (New_plaintext_port "8080" "" "" "" (by decide)).2.2 ⟨rfl, rfl, rfl⟩⟩

/-- C4 as stated fails: with all four inputs empty the single-port fallback
of `New` still fires, so it is not the case that the four servers are nil,
`ListenAndServe` starts nothing, and `Shutdown` issues nothing and returns
true. -/
theorem New_all_empty_not_unconfigured :
    ¬ ((New "" "" "" "").HTTP = none ∧ (New "" "" "" "").HTTP_v6 = none ∧
       (New "" "" "" "").HTTPS = none ∧ (New "" "" "" "").HTTPS_v6 = none ∧
       (New "" "" "" "").ListenAndServe.trace = [] ∧
       ∀ o : Outcomes,
         ((New "" "" "" "").Shutdown o).trace = [] ∧
         ((New "" "" "" "").Shutdown o).result = some true) := by
  intro h
  exact absurd h.1 (by decide)

/-- C4, amended: with all four inputs empty `New` configures the plaintext
pair by the single-port fallback, bound to the empty port (`0.0.0.0:` and
`[::]:`), and leaves the encrypted pair absent; `ListenAndServe` starts the
two plaintext listeners and no other; under either shutdown mode `Shutdown`
issues a stop action on the HTTP server and none on the encrypted pair, and it
returns true unless the graceful shutdown of HTTP and the escalated close both
fail, which is the fatal outcome. -/
theorem New_all_empty_fallback :
    (New "" "" "" "").HTTP =
        some { Addr := "0.0.0.0:", ReadHeaderTimeout := 3 * Second } ∧
    (New "" "" "" "").HTTP_v6 =
        some { Addr := "[::]:", ReadHeaderTimeout := 3 * Second } ∧
    (New "" "" "" "").HTTPS = none ∧
    (New "" "" "" "").HTTPS_v6 = none ∧
    (New "" "" "" "").HasBothHandlers = false ∧
    (New "" "" "" "").ListenAndServe.trace =
        [Event.Go (some { slot := Slot.HTTP,
                          server := { Addr := "0.0.0.0:", ReadHeaderTimeout := 3 * Second } }),
         Event.Go (some { slot := Slot.HTTP_v6,
                          server := { Addr := "[::]:", ReadHeaderTimeout := 3 * Second } })] ∧
    ∀ (o : Outcomes) (fast : Bool),
      stopActionsOn { slot := Slot.HTTP,
                      server := { Addr := "0.0.0.0:", ReadHeaderTimeout := 3 * Second } }
          (((New "" "" "" "").withFastShutdown fast).Shutdown o).trace ≠ [] ∧
      (∀ e ∈ (((New "" "" "" "").withFastShutdown fast).Shutdown o).trace,
          e.stopsEncrypted = false) ∧
      ((((New "" "" "" "").withFastShutdown fast).Shutdown o).result = none ↔
        (fast = false ∧
         o.Shutdown { slot := Slot.HTTP,
                      server := { Addr := "0.0.0.0:", ReadHeaderTimeout := 3 * Second } } ≠ none ∧
         o.Close { slot := Slot.HTTP,
                   server := { Addr := "0.0.0.0:", ReadHeaderTimeout := 3 * Second } } ≠ none)) ∧
      ((((New "" "" "" "").withFastShutdown fast).Shutdown o).result ≠ none →
        (((New "" "" "" "").withFastShutdown fast).Shutdown o).result = some true) := by
  refine ⟨by decide, by decide, by decide, by decide, by decide, by decide, ?_⟩
  intro o fast
  have hS : ((New "" "" "" "").withFastShutdown fast).HTTPS = none := by
    cases fast <;> decide
  have hH : ((New "" "" "" "").withFastShutdown fast).HTTP =
      some { Addr := "0.0.0.0:", ReadHeaderTimeout := 3 * Second } := by
    cases fast <;> decide
  have hF : ((New "" "" "" "").withFastShutdown fast).FastShutdown = fast := by
    cases fast <;> decide
  generalize (New "" "" "" "").withFastShutdown fast = s at hS hH hF ⊢
  generalize hb : ({ Addr := "0.0.0.0:", ReadHeaderTimeout := 3 * Second } : Server) = b
    at hH ⊢
  have ht := Shutdown_trace o s
  have hr := Shutdown_result o s
  rw [hS, hH, hF] at ht hr
  simp only [stopBlock_trace_nil, List.nil_append, bothFail, Bool.and_false, Bool.false_or,
    Bool.false_eq_true, if_false] at ht hr
  refine ⟨?_, ?_, ?_, ?_⟩
  · rw [ht]
    cases fast
    · rw [stopBlock_graceful_stopActionsOn]
      exact escalation_ne_nil o _
    · simp [stopBlock, stopActionsOn, Event.stopTarget]
  · intro e he
    cases hst : e.stopTarget with
    | none => simp [Event.stopsEncrypted, hst]
    | some r =>
      rcases Shutdown_stop_targets o s e he r hst with h | h
      · rw [hS] at h
        exact absurd h.2 (by simp)
      · simp [Event.stopsEncrypted, hst, h.1, Slot.encrypted]
  · rw [hr]
    cases fast <;>
      cases o.Shutdown { slot := Slot.HTTP, server := b } <;>
      cases o.Close { slot := Slot.HTTP, server := b } <;>
      simp
  · rw [hr]
    split <;> simp

/-- C5: in the manager returned by `New`, HasBothHandlers is the conjunction
of "HTTP is non-nil" and "HTTPS is non-nil"; it is true exactly when both
servers, and with them both pairs, are present. -/
theorem New_HasBothHandlers (httpPort httpsPort key cert : String) :
    (New httpPort httpsPort key cert).HasBothHandlers =
      ((New httpPort httpsPort key cert).HTTP.isSome &&
        (New httpPort httpsPort key cert).HTTPS.isSome) ∧
    ((New httpPort httpsPort key cert).HasBothHandlers = true ↔
      ((New httpPort httpsPort key cert).HTTP ≠ none ∧
        (New httpPort httpsPort key cert).HTTPS ≠ none)) ∧
    ((New httpPort httpsPort key cert).HasBothHandlers = true ↔
      (((New httpPort httpsPort key cert).HTTP ≠ none ∧
          (New httpPort httpsPort key cert).HTTP_v6 ≠ none) ∧
        ((New httpPort httpsPort key cert).HTTPS ≠ none ∧
          (New httpPort httpsPort key cert).HTTPS_v6 ≠ none))) := by
  by_cases h : httpsPort ≠ "" ∧ key ≠ "" ∧ cert ≠ "" <;>
    by_cases hp : httpPort = "" <;>
    simp [New, h, hp]

/-- C6: pair well-formedness. In the manager returned by `New`, HTTP is nil
iff HTTP_v6 is nil and HTTPS is nil iff HTTPS_v6 is nil; in each present pair
the two descriptors are bound to `0.0.0.0:p` and `[::]:p` for one port `p`,
both with a ReadHeaderTimeout of 3 seconds. -/
theorem New_pairs_well_formed (httpPort httpsPort key cert : String) :
    ((New httpPort httpsPort key cert).HTTP = none ↔
      (New httpPort httpsPort key cert).HTTP_v6 = none) ∧
    ((New httpPort httpsPort key cert).HTTPS = none ↔
      (New httpPort httpsPort key cert).HTTPS_v6 = none) ∧
    (∀ a, (New httpPort httpsPort key cert).HTTP = some a →
      ∃ b p, (New httpPort httpsPort key cert).HTTP_v6 = some b ∧
        a.Addr = "0.0.0.0:" ++ p ∧ b.Addr = "[::]:" ++ p ∧
        a.ReadHeaderTimeout = 3 * Second ∧ b.ReadHeaderTimeout = 3 * Second) ∧
    (∀ a, (New httpPort httpsPort key cert).HTTPS = some a →
      ∃ b p, (New httpPort httpsPort key cert).HTTPS_v6 = some b ∧
        a.Addr = "0.0.0.0:" ++ p ∧ b.Addr = "[::]:" ++ p ∧
        a.ReadHeaderTimeout = 3 * Second ∧ b.ReadHeaderTimeout = 3 * Second) := by
  by_cases h : httpsPort ≠ "" ∧ key ≠ "" ∧ cert ≠ "" <;>
    by_cases hp : httpPort = "" <;>
    simp [New, h, hp]
  · exact ⟨httpsPort, rfl, rfl⟩
  · exact ⟨⟨httpPort, rfl, rfl⟩, ⟨httpsPort, rfl, rfl⟩⟩
  · exact ⟨httpsPort, rfl, rfl⟩
  · exact ⟨httpPort, rfl, rfl⟩

/-! ## The lifecycle controller: `Shutdown` -/

/-- C7 fails on the code. For the manager `New("8080", "", "", "")`:
`ListenAndServe` starts a listener on the IPv6 server HTTP_v6, and `Shutdown`,
with every call succeeding, returns true after a trace that holds the graceful
shutdown of HTTP only. For every manager, every outcome of the calls and
either shutdown mode, no stop action is issued on HTTP_v6 or on HTTPS_v6. -/
theorem Shutdown_never_stops_v6 :
    (New "8080" "" "" "").HTTP_v6 =
        some { Addr := "[::]:8080", ReadHeaderTimeout := 3 * Second } ∧
    Event.Go (some { slot := Slot.HTTP_v6,
                     server := { Addr := "[::]:8080", ReadHeaderTimeout := 3 * Second } }) ∈
        (New "8080" "" "" "").ListenAndServe.trace ∧
    ((New "8080" "" "" "").Shutdown allSucceed).result = some true ∧
    ((New "8080" "" "" "").Shutdown allSucceed).trace =
        [Event.Shutdown { slot := Slot.HTTP,
                          server := { Addr := "0.0.0.0:8080", ReadHeaderTimeout := 3 * Second } },
         Event.Infof "HTTP server terminated gracefully"] ∧
    ∀ (o : Outcomes) (s : ServerInfo),
      stopActionsIn Slot.HTTP_v6 (s.Shutdown o).trace = [] ∧
      stopActionsIn Slot.HTTPS_v6 (s.Shutdown o).trace = [] := by
  refine ⟨by decide, by decide, by decide, by decide, ?_⟩
  intro o s
  constructor <;>
  · simp only [stopActionsIn, List.filter_eq_nil_iff, decide_eq_true_eq]
    intro e he heq
    cases hst : e.stopTarget with
    | none => simp [hst] at heq
    | some r =>
      rw [hst] at heq
      simp only [Option.map_some', Option.some.injEq] at heq
      rcases Shutdown_stop_targets o s e he r hst with h | h <;>
        · rw [h.1] at heq
          exact absurd heq (by decide)

/-- C8: stop order. For every manager with both pairs configured, whatever
its shutdown mode and whatever the underlying calls return, every stop action
that `Shutdown` issues on the encrypted pair stands in the trace before every
stop action on the plaintext pair; a stop action on the encrypted pair is
always issued, and one on the plaintext pair whenever `Shutdown` returns. -/
theorem Shutdown_encrypted_before_plaintext (o : Outcomes) (s : ServerInfo)
    (hH : s.HTTP ≠ none) (hS : s.HTTPS ≠ none) :
    (∀ (i j : Nat) (e1 e2 : Event),
      (s.Shutdown o).trace[i]? = some e1 → e1.stopsEncrypted = true →
      (s.Shutdown o).trace[j]? = some e2 → e2.stopsPlaintext = true →
      i < j) ∧
    (∃ e ∈ (s.Shutdown o).trace, e.stopsEncrypted = true) ∧
    ((s.Shutdown o).result ≠ none →
      ∃ e ∈ (s.Shutdown o).trace, e.stopsPlaintext = true) := by
  refine ⟨?_, ?_, ?_⟩
  · intro i j e1 e2 hi h1 hj h2
    rw [Shutdown_trace] at hi hj
    refine index_lt_of_append (fun e => e.stopsEncrypted = true)
      (fun e => e.stopsPlaintext = true) _ _ ?_ ?_ i j e1 e2 hi h1 hj h2
    · intro e he
      cases hst : e.stopTarget with
      | none => simp [Event.stopsPlaintext, hst]
      | some r =>
        have h := stopBlock_targets o _ _ _ _ e he r hst
        simp [Event.stopsPlaintext, hst, h.1, Slot.plaintext]
    · intro e he
      split at he
      · simp at he
      · cases hst : e.stopTarget with
        | none => simp [Event.stopsEncrypted, hst]
        | some r =>
          have h := stopBlock_targets o _ _ _ _ e he r hst
          simp [Event.stopsEncrypted, hst, h.1, Slot.encrypted]
  · obtain ⟨a, ha⟩ := Option.ne_none_iff_exists'.mp hS
    obtain ⟨e, he, hst⟩ := stopBlock_ne_nil o s.FastShutdown "HTTPS" Slot.HTTPS a
    refine ⟨e, ?_, ?_⟩
    · rw [Shutdown_trace, ha]
      exact List.mem_append_left _ he
    · simp [Event.stopsEncrypted, hst, Slot.encrypted]
  · intro hres
    obtain ⟨b, hb⟩ := Option.ne_none_iff_exists'.mp hH
    obtain ⟨e, he, hst⟩ := stopBlock_ne_nil o s.FastShutdown "HTTP" Slot.HTTP b
    have hc : ¬ (!s.FastShutdown && bothFail o Slot.HTTPS s.HTTPS) = true := by
      intro hc
      apply hres
      rw [Shutdown_result]
      simp only [Bool.and_eq_true, Bool.or_eq_true] at hc ⊢
      rw [if_pos ⟨hc.1, Or.inl hc.2⟩]
    refine ⟨e, ?_, ?_⟩
    · rw [Shutdown_trace, if_neg hc, hb]
      exact List.mem_append_right _ he
    · simp [Event.stopsPlaintext, hst, Slot.plaintext]

/-- C8 at the manager `New("8080", "8443", "k", "c")`, with every graceful
shutdown failing and every close succeeding: both pairs are configured, each
receives a graceful shutdown and a close, and the order holds. -/
theorem Shutdown_encrypted_before_plaintext_witness :
    ((New "8080" "8443" "k" "c").HTTP ≠ none ∧ (New "8080" "8443" "k" "c").HTTPS ≠ none) ∧
    (∀ (i j : Nat) (e1 e2 : Event),
      ((New "8080" "8443" "k" "c").Shutdown gracefulFails).trace[i]? = some e1 →
      e1.stopsEncrypted = true →
      ((New "8080" "8443" "k" "c").Shutdown gracefulFails).trace[j]? = some e2 →
      e2.stopsPlaintext = true →
      i < j) ∧
    (∃ e ∈ ((New "8080" "8443" "k" "c").Shutdown gracefulFails).trace,
      e.stopsEncrypted = true) ∧
    (((New "8080" "8443" "k" "c").Shutdown gracefulFails).result ≠ none →
      ∃ e ∈ ((New "8080" "8443" "k" "c").Shutdown gracefulFails).trace,
        e.stopsPlaintext = true) :=
  ⟨⟨by decide, by decide⟩,
   Shutdown_encrypted_before_plaintext gracefulFails (New "8080" "8443" "k" "c")
     (by decide) (by decide)⟩

/-- C9: fast shutdown. For every manager with FastShutdown = true and every
outcome of the calls, the trace of `Shutdown` holds no graceful shutdown of any
server: it is the hard close of HTTPS if the encrypted pair is configured,
followed by the hard close of HTTP if the plaintext pair is configured, and
nothing else. -/
theorem Shutdown_fast_only_closes (o : Outcomes) (s : ServerInfo)
    (hf : s.FastShutdown = true) :
    (∀ r : Ref, Event.Shutdown r ∉ (s.Shutdown o).trace) ∧
    (∀ e ∈ (s.Shutdown o).trace, ∃ r : Ref, e = Event.Close r) ∧
    (s.Shutdown o).trace =
      (match s.HTTPS with
        | some a => [Event.Close { slot := Slot.HTTPS, server := a }]
        | none => []) ++
      (match s.HTTP with
        | some b => [Event.Close { slot := Slot.HTTP, server := b }]
        | none => []) := by
  have ht : (s.Shutdown o).trace =
      (match s.HTTPS with
        | some a => [Event.Close { slot := Slot.HTTPS, server := a }]
        | none => []) ++
      (match s.HTTP with
        | some b => [Event.Close { slot := Slot.HTTP, server := b }]
        | none => []) := by
    rw [Shutdown_trace, hf]
    simp [stopBlock_trace_fast]
  refine ⟨?_, ?_, ht⟩
  · intro r hr
    rw [ht] at hr
    cases hS : s.HTTPS <;> cases hH : s.HTTP <;> simp [hS, hH] at hr
  · intro e he
    rw [ht] at he
    cases hS : s.HTTPS <;> cases hH : s.HTTP <;> simp [hS, hH] at he
    · exact ⟨_, he⟩
    · exact ⟨_, he⟩
    · rcases he with he | he <;> exact ⟨_, he⟩

/-- C9 at the manager `New("8080", "8443", "k", "c")` with FastShutdown set
and every call failing. -/
theorem Shutdown_fast_only_closes_witness :
    ((New "8080" "8443" "k" "c").withFastShutdown true).FastShutdown = true ∧
    (∀ r : Ref, Event.Shutdown r ∉
      (((New "8080" "8443" "k" "c").withFastShutdown true).Shutdown allFail).trace) ∧
    (((New "8080" "8443" "k" "c").withFastShutdown true).Shutdown allFail).trace =
      [Event.Close { slot := Slot.HTTPS,
                     server := { Addr := "0.0.0.0:8443", ReadHeaderTimeout := 3 * Second } },
       Event.Close { slot := Slot.HTTP,
                     server := { Addr := "0.0.0.0:8080", ReadHeaderTimeout := 3 * Second } }] :=
  ⟨by decide,
   (Shutdown_fast_only_closes allFail ((New "8080" "8443" "k" "c").withFastShutdown true)
     (by decide)).1,
   (Shutdown_fast_only_closes allFail ((New "8080" "8443" "k" "c").withFastShutdown true)
     (by decide)).2.2.trans (by decide)⟩

/-- C10: graceful escalation. With FastShutdown = false, for every manager
and every outcome of the calls: the stop actions on the HTTPS server of a
configured encrypted pair are the graceful shutdown first, followed by the hard
close exactly when the graceful shutdown returned an error; the same holds for
the HTTP server of a configured plaintext pair, whose block runs unless the
process has already ended in the fatal outcome of the encrypted pair; a hard
close is issued on a server if and only if a graceful shutdown was requested
on it and returned an error; and the run ends in the fatal outcome if and only
if a hard close it issued returned an error, returning true otherwise. -/
theorem Shutdown_graceful_escalation (o : Outcomes) (s : ServerInfo)
    (hf : s.FastShutdown = false) :
    (∀ a, s.HTTPS = some a →
      stopActionsOn { slot := Slot.HTTPS, server := a } (s.Shutdown o).trace =
        escalation o { slot := Slot.HTTPS, server := a }) ∧
    (∀ b, s.HTTP = some b →
      stopActionsOn { slot := Slot.HTTP, server := b } (s.Shutdown o).trace =
        if bothFail o Slot.HTTPS s.HTTPS = true then []
        else escalation o { slot := Slot.HTTP, server := b }) ∧
    (∀ r : Ref, Event.Close r ∈ (s.Shutdown o).trace ↔
      (Event.Shutdown r ∈ (s.Shutdown o).trace ∧ o.Shutdown r ≠ none)) ∧
    ((s.Shutdown o).result = none ↔
      ∃ r : Ref, Event.Close r ∈ (s.Shutdown o).trace ∧ o.Close r ≠ none) ∧
    ((s.Shutdown o).result ≠ none → (s.Shutdown o).result = some true) := by
  have ht := Shutdown_trace o s
  have hr := Shutdown_result o s
  rw [hf] at ht hr
  simp only [Bool.not_false, Bool.true_and] at ht hr
  have hmS : ∀ r : Ref, Event.Shutdown r ∈ (s.Shutdown o).trace ↔
      ((s.HTTPS = some r.server ∧ r.slot = Slot.HTTPS) ∨
        (¬ bothFail o Slot.HTTPS s.HTTPS = true ∧ s.HTTP = some r.server ∧
          r.slot = Slot.HTTP)) := by
    intro r
    rw [ht, List.mem_append, stopBlock_graceful_mem_Shutdown]
    by_cases c : bothFail o Slot.HTTPS s.HTTPS = true
    · simp [c]
    · simp [c, stopBlock_graceful_mem_Shutdown]
  have hmC : ∀ r : Ref, Event.Close r ∈ (s.Shutdown o).trace ↔
      ((s.HTTPS = some r.server ∧ r.slot = Slot.HTTPS ∧ o.Shutdown r ≠ none) ∨
        (¬ bothFail o Slot.HTTPS s.HTTPS = true ∧ s.HTTP = some r.server ∧
          r.slot = Slot.HTTP ∧ o.Shutdown r ≠ none)) := by
    intro r
    rw [ht, List.mem_append, stopBlock_graceful_mem_Close]
    by_cases c : bothFail o Slot.HTTPS s.HTTPS = true
    · simp [c]
    · simp [c, stopBlock_graceful_mem_Close]
  refine ⟨?_, ?_, ?_, ?_, ?_⟩
  · intro a ha
    rw [ht, ha]
    unfold stopActionsOn
    rw [List.filter_append]
    have h2 := stopActionsOn_eq_nil_of_slot { slot := Slot.HTTPS, server := a } Slot.HTTP
      (if bothFail o Slot.HTTPS (some a) = true then []
        else (stopBlock o false "HTTP" Slot.HTTP s.HTTP).trace)
      (by
        intro e he r2 hr2
        split at he
        · simp at he
        · exact (stopBlock_targets o _ _ _ _ e he r2 hr2).1)
      (by simp)
    have h1 := stopBlock_graceful_stopActionsOn o "HTTPS" Slot.HTTPS a
    unfold stopActionsOn at h1 h2
    rw [h1, h2, List.append_nil]
  · intro b hb
    rw [ht, hb]
    unfold stopActionsOn
    rw [List.filter_append]
    have h1 := stopActionsOn_eq_nil_of_slot { slot := Slot.HTTP, server := b } Slot.HTTPS
      (stopBlock o false "HTTPS" Slot.HTTPS s.HTTPS).trace
      (fun e he r2 hr2 => (stopBlock_targets o _ _ _ _ e he r2 hr2).1)
      (by simp)
    have h2 := stopBlock_graceful_stopActionsOn o "HTTP" Slot.HTTP b
    unfold stopActionsOn at h1 h2
    rw [h1, List.nil_append]
    by_cases c : bothFail o Slot.HTTPS s.HTTPS = true
    · simp [c]
    · simp only [c, if_false]
      exact h2
  · intro r
    rw [hmC, hmS]
    tauto
  · rw [hr]
    constructor
    · intro h
      have hb : bothFail o Slot.HTTPS s.HTTPS = true ∨ bothFail o Slot.HTTP s.HTTP = true := by
        by_contra hc
        simp only [not_or] at hc
        simp [hc.1, hc.2] at h
      by_cases c : bothFail o Slot.HTTPS s.HTTPS = true
      · obtain ⟨r, h1, h2, h3, h4⟩ := (bothFail_iff o _ _).mp c
        exact ⟨r, (hmC r).mpr (Or.inl ⟨h1, h2, h3⟩), h4⟩
      · have c2 : bothFail o Slot.HTTP s.HTTP = true := hb.resolve_left c
        obtain ⟨r, h1, h2, h3, h4⟩ := (bothFail_iff o _ _).mp c2
        exact ⟨r, (hmC r).mpr (Or.inr ⟨c, h1, h2, h3⟩), h4⟩
    · rintro ⟨r, hc, h4⟩
      rcases (hmC r).mp hc with ⟨h1, h2, h3⟩ | ⟨-, h1, h2, h3⟩
      · have c := (bothFail_iff o Slot.HTTPS s.HTTPS).mpr ⟨r, h1, h2, h3, h4⟩
        simp [c]
      · have c := (bothFail_iff o Slot.HTTP s.HTTP).mpr ⟨r, h1, h2, h3, h4⟩
        simp [c]
  · rw [hr]
    split <;> simp

/-- C10 at the manager `New("8080", "8443", "k", "c")`, whose FastShutdown is
false, with every graceful shutdown failing and every close succeeding: each
pair receives the graceful shutdown and then the close, and the run returns
true. -/
theorem Shutdown_graceful_escalation_witness :
    (New "8080" "8443" "k" "c").FastShutdown = false ∧
    stopActionsOn { slot := Slot.HTTPS, server := { Addr := "0.0.0.0:8443", ReadHeaderTimeout := 3 * Second } }
        ((New "8080" "8443" "k" "c").Shutdown gracefulFails).trace =
      [Event.Shutdown { slot := Slot.HTTPS, server := { Addr := "0.0.0.0:8443", ReadHeaderTimeout := 3 * Second } },
       Event.Close { slot := Slot.HTTPS, server := { Addr := "0.0.0.0:8443", ReadHeaderTimeout := 3 * Second } }] ∧
    stopActionsOn { slot := Slot.HTTP, server := { Addr := "0.0.0.0:8080", ReadHeaderTimeout := 3 * Second } }
        ((New "8080" "8443" "k" "c").Shutdown gracefulFails).trace =
      [Event.Shutdown { slot := Slot.HTTP, server := { Addr := "0.0.0.0:8080", ReadHeaderTimeout := 3 * Second } },
       Event.Close { slot := Slot.HTTP, server := { Addr := "0.0.0.0:8080", ReadHeaderTimeout := 3 * Second } }] ∧
    ((New "8080" "8443" "k" "c").Shutdown gracefulFails).result = some true :=
  ⟨by decide,
   ((Shutdown_graceful_escalation gracefulFails (New "8080" "8443" "k" "c") (by decide)).1
      _ (by decide)).trans (by decide),
   ((Shutdown_graceful_escalation gracefulFails (New "8080" "8443" "k" "c") (by decide)).2.1
      _ (by decide)).trans (by decide),
   (Shutdown_graceful_escalation gracefulFails (New "8080" "8443" "k" "c") (by decide)).2.2.2.2
      (by decide)⟩

/-- C11 fails on the code in the fast mode. For the manager
`New("8080", "", "", "")` with FastShutdown set and every call failing,
`Shutdown` issues the hard close of HTTP, that close returns an error, and
`Shutdown` returns true; with FastShutdown set `Shutdown` returns true for
every manager and every outcome. With the same manager and outcomes in the
graceful mode the failed escalated close ends in the fatal outcome. -/
theorem Shutdown_fast_discards_close_error :
    (((New "8080" "" "" "").withFastShutdown true).Shutdown allFail).trace =
      [Event.Close { slot := Slot.HTTP, server := { Addr := "0.0.0.0:8080", ReadHeaderTimeout := 3 * Second } }] ∧
    allFail.Close { slot := Slot.HTTP, server := { Addr := "0.0.0.0:8080", ReadHeaderTimeout := 3 * Second } } =
      some "close error" ∧
    (((New "8080" "" "" "").withFastShutdown true).Shutdown allFail).result = some true ∧
    (∀ (o : Outcomes) (s : ServerInfo),
      ((s.withFastShutdown true).Shutdown o).result = some true) ∧
    ((New "8080" "" "" "").Shutdown allFail).result = none := by
  refine ⟨by decide, by decide, by decide, ?_, by decide⟩
  intro o s
  rw [Shutdown_result]
  simp [ServerInfo.withFastShutdown]

/-! ## The lifecycle controller: `ListenAndServe` -/

theorem ListenAndServe_trace (s : ServerInfo) :
    s.ListenAndServe.trace =
      (if s.HTTP ≠ none then
          [Event.Go (ref Slot.HTTP s.HTTP), Event.Go (ref Slot.HTTP_v6 s.HTTP_v6)]
        else []) ++
      (if s.HTTPS ≠ none then
          [Event.Go (ref Slot.HTTPS s.HTTPS), Event.Go (ref Slot.HTTPS_v6 s.HTTPS_v6)]
        else []) := by
  by_cases h1 : s.HTTP = none <;> by_cases h2 : s.HTTPS = none <;>
    simp [ServerInfo.ListenAndServe, Run.andThen, h1, h2]

theorem httpListen_not_TLS (listen : Ref → ListenError) (server : Option Ref)
    (e : ListenEvent) (he : e ∈ (httpListen listen server).trace) : e.isTLS = false := by
  cases server with
  | none => simp [httpListen] at he
  | some r =>
    cases h : listen r <;> simp [httpListen, h] at he <;>
      rcases he with rfl | rfl | rfl <;> rfl

/-- C12 fails on the code. For the manager `New("", "8443", "k", "c")`, which
carries the key file "k" and the certificate file "c", the goroutines that
`ListenAndServe` starts for HTTPS and HTTPS_v6 each log the start and call the
plaintext `server.ListenAndServe()`; for every manager and every goroutine
that `ListenAndServe` starts, no call it makes is a TLS listen. -/
theorem ListenAndServe_never_TLS :
    (New "" "8443" "k" "c").HTTPSKeyFile = "k" ∧
    (New "" "8443" "k" "c").HTTPSCertFile = "c" ∧
    (New "" "8443" "k" "c").tasks closedInOrder =
      [{ trace := [ListenEvent.Infof "Starting handler on 0.0.0.0:8443...",
                   ListenEvent.ListenAndServe { slot := Slot.HTTPS, server := { Addr := "0.0.0.0:8443", ReadHeaderTimeout := 3 * Second } }],
         exit := Exit.returned },
       { trace := [ListenEvent.Infof "Starting handler on [::]:8443...",
                   ListenEvent.ListenAndServe { slot := Slot.HTTPS_v6, server := { Addr := "[::]:8443", ReadHeaderTimeout := 3 * Second } }],
         exit := Exit.returned }] ∧
    ∀ (listen : Ref → ListenError) (s : ServerInfo),
      ∀ t ∈ s.tasks listen, ∀ e ∈ t.trace, e.isTLS = false := by
  refine ⟨by decide, by decide, by decide, ?_⟩
  intro listen s t ht e he
  simp only [ServerInfo.tasks, List.mem_filterMap] at ht
  obtain ⟨ev, -, hev⟩ := ht
  cases ev with
  | Go server =>
    simp only [Event.task, Option.some.injEq] at hev
    subst hev
    exact httpListen_not_TLS listen server e he
  | Shutdown r => simp [Event.task] at hev
  | Close r => simp [Event.task] at hev
  | Infof m => simp [Event.task] at hev
  | Fatalf m => simp [Event.task] at hev

/-- C13: for every manager, `ListenAndServe` executes one `go httpListen`
statement for the IPv4 server and one for the IPv6 server of each configured
pair, each with its own server as argument, and none for a pair that is not
configured: its trace is these statements and nothing else, each descriptor of
a configured pair is the argument of exactly one of them, and the number of
goroutines started is twice the number of configured pairs, at most four. -/
theorem ListenAndServe_spawns_per_descriptor (s : ServerInfo) :
    s.ListenAndServe.trace =
      (if s.HTTP ≠ none then
          [Event.Go (ref Slot.HTTP s.HTTP), Event.Go (ref Slot.HTTP_v6 s.HTTP_v6)]
        else []) ++
      (if s.HTTPS ≠ none then
          [Event.Go (ref Slot.HTTPS s.HTTPS), Event.Go (ref Slot.HTTPS_v6 s.HTTPS_v6)]
        else []) ∧
    (∀ a, s.HTTP = some a →
      s.ListenAndServe.trace.count (Event.Go (some { slot := Slot.HTTP, server := a })) = 1) ∧
    (∀ b, s.HTTP ≠ none → s.HTTP_v6 = some b →
      s.ListenAndServe.trace.count (Event.Go (some { slot := Slot.HTTP_v6, server := b })) = 1) ∧
    (∀ a, s.HTTPS = some a →
      s.ListenAndServe.trace.count (Event.Go (some { slot := Slot.HTTPS, server := a })) = 1) ∧
    (∀ b, s.HTTPS ≠ none → s.HTTPS_v6 = some b →
      s.ListenAndServe.trace.count (Event.Go (some { slot := Slot.HTTPS_v6, server := b })) = 1) ∧
    (s.HTTP = none → ∀ r : Ref, Event.Go (some r) ∈ s.ListenAndServe.trace →
      r.slot.plaintext = false) ∧
    (s.HTTPS = none → ∀ r : Ref, Event.Go (some r) ∈ s.ListenAndServe.trace →
      r.slot.encrypted = false) ∧
    (∀ listen : Ref → ListenError, (s.tasks listen).length = 2 * s.configuredPairs) ∧
    s.ListenAndServe.trace.length = 2 * s.configuredPairs ∧
    2 * s.configuredPairs ≤ 4 := by
  have ht := ListenAndServe_trace s
  refine ⟨ht, ?_, ?_, ?_, ?_, ?_, ?_, ?_, ?_, ?_⟩
  · intro a ha
    rw [ht]
    cases h2 : s.HTTPS <;> cases h3 : s.HTTP_v6 <;> cases h4 : s.HTTPS_v6 <;>
      simp [ha, ref, List.count_cons]
  · intro b hne hb
    rw [ht]
    cases h1 : s.HTTP <;> cases h2 : s.HTTPS <;> cases h4 : s.HTTPS_v6 <;>
      simp_all [ref, List.count_cons]
  · intro a ha
    rw [ht]
    cases h1 : s.HTTP <;> cases h3 : s.HTTP_v6 <;> cases h4 : s.HTTPS_v6 <;>
      simp [ha, ref, List.count_cons]
  · intro b hne hb
    rw [ht]
    cases h1 : s.HTTP <;> cases h2 : s.HTTPS <;> cases h3 : s.HTTP_v6 <;>
      simp_all [ref, List.count_cons]
  · intro h r hr
    rw [ht] at hr
    cases h2 : s.HTTPS <;> cases h4 : s.HTTPS_v6 <;>
      simp [h, h2, h4, ref] at hr <;>
      rcases hr with rfl | rfl <;> rfl
  · intro h r hr
    rw [ht] at hr
    cases h1 : s.HTTP <;> cases h3 : s.HTTP_v6 <;>
      simp [h, h1, h3, ref] at hr <;>
      rcases hr with rfl | rfl <;> rfl
  · intro listen
    unfold ServerInfo.tasks ServerInfo.configuredPairs
    rw [ht]
    by_cases h1 : s.HTTP = none <;> by_cases h2 : s.HTTPS = none <;>
      simp [h1, h2, Event.task, List.filterMap_cons]
  · rw [ht]
    unfold ServerInfo.configuredPairs
    by_cases h1 : s.HTTP = none <;> by_cases h2 : s.HTTPS = none <;> simp [h1, h2]
  · unfold ServerInfo.configuredPairs
    by_cases h1 : s.HTTP = none <;> by_cases h2 : s.HTTPS = none <;> simp [h1, h2]

/-! ## The resolver `New`: the remaining cases -/

/-- C14: coexistence. When httpPort, httpsPort, key and cert are all
non-empty, `New` configures both pairs, the encrypted pair bound to httpsPort
and the plaintext pair bound to httpPort, and HasBothHandlers is true. -/
theorem New_coexistence (httpPort httpsPort key cert : String)
    (hp : httpPort ≠ "") (hs : httpsPort ≠ "") (hk : key ≠ "") (hc : cert ≠ "") :
    (New httpPort httpsPort key cert).HTTPS =
        some { Addr := "0.0.0.0:" ++ httpsPort, ReadHeaderTimeout := 3 * Second } ∧
    (New httpPort httpsPort key cert).HTTPS_v6 =
        some { Addr := "[::]:" ++ httpsPort, ReadHeaderTimeout := 3 * Second } ∧
    (New httpPort httpsPort key cert).HTTP =
        some { Addr := "0.0.0.0:" ++ httpPort, ReadHeaderTimeout := 3 * Second } ∧
    (New httpPort httpsPort key cert).HTTP_v6 =
        some { Addr := "[::]:" ++ httpPort, ReadHeaderTimeout := 3 * Second } ∧
    (New httpPort httpsPort key cert).HasBothHandlers = true := by
  simp [New, hp, hs, hk, hc]

/-- C14 at the input of the specification: ports 8080 and 8443, key "k",
certificate "c". -/
theorem New_coexistence_witness :
    ("8080" ≠ "" ∧ "8443" ≠ "" ∧ "k" ≠ "" ∧ "c" ≠ "") ∧
    (New "8080" "8443" "k" "c").HTTPS =
        some { Addr := "0.0.0.0:" ++ "8443", ReadHeaderTimeout := 3 * Second } ∧
    (New "8080" "8443" "k" "c").HTTPS_v6 =
        some { Addr := "[::]:" ++ "8443", ReadHeaderTimeout := 3 * Second } ∧
    (New "8080" "8443" "k" "c").HTTP =
        some { Addr := "0.0.0.0:" ++ "8080", ReadHeaderTimeout := 3 * Second } ∧
    (New "8080" "8443" "k" "c").HTTP_v6 =
        some { Addr := "[::]:" ++ "8080", ReadHeaderTimeout := 3 * Second } ∧
    (New "8080" "8443" "k" "c").HasBothHandlers = true :=
  ⟨by decide,
   New_coexistence "8080" "8443" "k" "c" (by decide) (by decide) (by decide) (by decide)⟩

/-- C15: encrypted-only. When httpsPort, key and cert are non-empty and
httpPort is empty, `New` configures only the encrypted pair: HTTPS and
HTTPS_v6 are bound to httpsPort, HTTP and HTTP_v6 are nil, and
HasBothHandlers is false. -/
theorem New_encrypted_only (httpPort httpsPort key cert : String)
    (hp : httpPort = "") (hs : httpsPort ≠ "") (hk : key ≠ "") (hc : cert ≠ "") :
    (New httpPort httpsPort key cert).HTTPS =
        some { Addr := "0.0.0.0:" ++ httpsPort, ReadHeaderTimeout := 3 * Second } ∧
    (New httpPort httpsPort key cert).HTTPS_v6 =
        some { Addr := "[::]:" ++ httpsPort, ReadHeaderTimeout := 3 * Second } ∧
    (New httpPort httpsPort key cert).HTTP = none ∧
    (New httpPort httpsPort key cert).HTTP_v6 = none ∧
    (New httpPort httpsPort key cert).HasBothHandlers = false := by
  simp [New, hp, hs, hk, hc]

/-- C15 at the input of the specification: encrypted port 8443, key "k",
certificate "c", no plaintext port. -/
theorem New_encrypted_only_witness :
    ("" = "" ∧ "8443" ≠ "" ∧ "k" ≠ "" ∧ "c" ≠ "") ∧
    (New "" "8443" "k" "c").HTTPS =
        some { Addr := "0.0.0.0:" ++ "8443", ReadHeaderTimeout := 3 * Second } ∧
    (New "" "8443" "k" "c").HTTPS_v6 =
        some { Addr := "[::]:" ++ "8443", ReadHeaderTimeout := 3 * Second } ∧
    (New "" "8443" "k" "c").HTTP = none ∧
    (New "" "8443" "k" "c").HTTP_v6 = none ∧
    (New "" "8443" "k" "c").HasBothHandlers = false :=
  ⟨by decide,
   New_encrypted_only "" "8443" "k" "c" rfl (by decide) (by decide) (by decide)⟩

/-- C16: for every manager, in either shutdown mode, and for every outcome of
the underlying calls, a run of `Shutdown` that does not end in the fatal
outcome returns true. -/
theorem Shutdown_returns_true (o : Outcomes) (s : ServerInfo)
    (h : (s.Shutdown o).result ≠ none) : (s.Shutdown o).result = some true := by
  rw [Shutdown_result] at h ⊢
  split
  · rename_i c
    simp [c] at h
  · rfl

/-- C16 at the manager `New("8080", "8443", "k", "c")` with every graceful
shutdown failing and every escalated close succeeding: no fatal outcome, and
`Shutdown` returns true. -/
theorem Shutdown_returns_true_witness :
    ((New "8080" "8443" "k" "c").Shutdown gracefulFails).result ≠ none ∧
    ((New "8080" "8443" "k" "c").Shutdown gracefulFails).result = some true :=
  ⟨by decide,
   Shutdown_returns_true gracefulFails (New "8080" "8443" "k" "c") (by decide)⟩

/-- C17: silent drop of the encrypted port. For every non-empty httpPort and
every key and cert of which at least one is empty, the manager returned by
`New` does not depend on httpsPort: any two values of httpsPort give equal
managers. -/
theorem New_drops_httpsPort (httpPort key cert p1 p2 : String)
    (hp : httpPort ≠ "") (h : key = "" ∨ cert = "") :
    New httpPort p1 key cert = New httpPort p2 key cert := by
  rcases h with h | h <;> simp [New, hp, h]

/-- C17 at plaintext port 8080 with a key and no certificate: the encrypted
ports 8443 and 9443 give the same manager, the one with the plaintext pair on
8080 alone. -/
theorem New_drops_httpsPort_witness :
    ("8080" ≠ "" ∧ ("k" = "" ∨ "" = "")) ∧
    New "8080" "8443" "k" "" = New "8080" "9443" "k" "" ∧
    New "8080" "8443" "k" "" =
      { HTTP := some { Addr := "0.0.0.0:8080", ReadHeaderTimeout := 3 * Second },
        HTTP_v6 := some { Addr := "[::]:8080", ReadHeaderTimeout := 3 * Second } } :=
  ⟨⟨by decide, Or.inr rfl⟩,
   New_drops_httpsPort "8080" "k" "" "8443" "9443" (by decide) (Or.inr rfl),
   by decide⟩

/-- C18: for every input `New` configures at least one pair. The plaintext
pair is absent exactly when httpsPort, key and cert are all non-empty and
httpPort is empty, and then the encrypted pair is present; no input yields a
manager whose HTTP and HTTPS are both nil. -/
theorem New_configures_a_pair (httpPort httpsPort key cert : String) :
    ((New httpPort httpsPort key cert).HTTP = none ↔
      ((httpsPort ≠ "" ∧ key ≠ "" ∧ cert ≠ "") ∧ httpPort = "")) ∧
    ((New httpPort httpsPort key cert).HTTP_v6 = none ↔
      ((httpsPort ≠ "" ∧ key ≠ "" ∧ cert ≠ "") ∧ httpPort = "")) ∧
    ((New httpPort httpsPort key cert).HTTP = none →
      (New httpPort httpsPort key cert).HTTPS ≠ none ∧
      (New httpPort httpsPort key cert).HTTPS_v6 ≠ none) ∧
    ¬ ((New httpPort httpsPort key cert).HTTP = none ∧
        (New httpPort httpsPort key cert).HTTPS = none) := by
  by_cases h : httpsPort ≠ "" ∧ key ≠ "" ∧ cert ≠ "" <;>
    by_cases hp : httpPort = "" <;>
    simp [New, h, hp]

end Servers
